import Mathlib

/-!
Shallow embedding of the docker-luks-volume-plugin sources.

Each Rust function of the repository that the verified properties depend on
is translated into a Lean definition.  External effects (filesystem calls,
the `dd` subprocess, libcryptsetup calls, the kernel mount API, the HSM
transport) are modelled by explicit environment records carrying the outcome
of every fallible primitive: a field of type `Option String` is `none` when
the primitive succeeds and `some why` when it fails with detail string `why`,
matching the way the Rust code only ever observes the error value.
Side effects on the host are tracked in an explicit `SysState`.
-/

namespace LuksPlugin

/-! ## Data model: `src/plugin/volume.rs` -/

/-- Volume record (`volume::Volume`): a name and an optional mountpoint. -/
structure Volume where
  name : String
  mountpoint : Option String
deriving DecidableEq, Repr

/-! ## Crypto layer: `src/crypto/mod.rs` -/

/-- `CryptoError` from `src/crypto/mod.rs`. -/
inductive CryptoError where
  | InvalidKey : CryptoError
  | UnableToEncrypt : String → CryptoError
  | UnableToDecrypt : String → CryptoError
deriving DecidableEq, Repr

/-- The `fmt::Display` impl for `CryptoError`: `InvalidKey` prints
"Invalid Key", every other variant prints "Unknown". -/
def CryptoError.display : CryptoError → String
  | .InvalidKey => "Invalid Key"
  | _ => "Unknown"

/-- `CryptoResult<T> = Result<T, CryptoError>`. -/
abbrev CryptoResult (α : Type) := Except CryptoError α

/-- A `VirtualHSM` trait object: the three capabilities `encrypt`, `decrypt`
and `random_bytes`.  `random_bytes` is the (single) draw the engine makes
from the HSM entropy source during one `create` call. -/
structure HSM where
  encrypt : List Nat → CryptoResult (List Nat)
  decrypt : List Nat → CryptoResult (List Nat)
  random_bytes : CryptoResult (List Nat)

/-- `DummyHSM::random_bytes`: fills a 1024-byte buffer from the OS CSPRNG
(`rand_bytes`) and returns it.  The entropy source is modelled as a function
`rand` from buffer index to byte value. -/
def dummy_random_bytes (rand : Nat → Nat) : CryptoResult (List Nat) :=
  .ok ((List.range 1024).map rand)

/-- `CloudLockHSM::random_bytes` from `src/hsm/cloudlock.rs`: fills a
128-byte buffer from the OS CSPRNG (`rand_bytes`) and returns it. -/
def cloudlock_random_bytes (rand : Nat → Nat) : CryptoResult (List Nat) :=
  .ok ((List.range 128).map rand)

/-- `DummyHSM`, the passthrough variant: `encrypt` and `decrypt` are
`Ok(blob)` (the identity), `random_bytes` draws 1024 bytes. -/
def dummyHSM (rand : Nat → Nat) : HSM where
  encrypt := fun blob => .ok blob
  decrypt := fun blob => .ok blob
  random_bytes := dummy_random_bytes rand

/-! ## RPC layer: `src/plugin/mod.rs` and `src/plugin/rpc_request.rs` -/

/-- An actix `HttpResponse`, reduced to what the dispatcher decides: a
status code and an optional JSON body (`none` is a response with an empty
body, as built by `HttpResponse::new(status)`). -/
structure HttpResponse where
  status : Nat
  body : Option String
deriving DecidableEq, Repr

/-- Naive JSON rendering of a string value (escaping is not modelled). -/
def jsonStr (s : String) : String := "\"" ++ s ++ "\""

/-- Serialization of `RpcError \x7b err \x7d` with serde rename `Err`:
`\x7b"Err":"<msg>"\x7d`. -/
def rpcErrorJson (msg : String) : String :=
  "\x7b\"Err\":" ++ jsonStr msg ++ "\x7d"

/-- Serialization of `MountVolumeResponse \x7b mountpoint, err \x7d`. -/
def mountResponseJson (mountpoint err : String) : String :=
  "\x7b\"Mountpoint\":" ++ jsonStr mountpoint ++ ",\"Err\":" ++ jsonStr err ++ "\x7d"

/-- Serialization of a `Volume` record. -/
def volumeJson (v : Volume) : String :=
  "\x7b\"Name\":" ++ jsonStr v.name ++ ",\"Mountpoint\":" ++
    (match v.mountpoint with
     | some m => jsonStr m
     | none => "null") ++ "\x7d"

/-- Serialization of `GetVolumeResponse \x7b volume, err \x7d`. -/
def getResponseJson (v : Volume) (err : String) : String :=
  "\x7b\"Volume\":" ++ volumeJson v ++ ",\"Err\":" ++ jsonStr err ++ "\x7d"

/-- Serialization of `ListVolumesResponse \x7b volumes, err \x7d`. -/
def listResponseJson (vs : List Volume) (err : String) : String :=
  "\x7b\"Volumes\":[" ++ String.intercalate "," (vs.map volumeJson) ++
    "],\"Err\":" ++ jsonStr err ++ "\x7d"

/-- `RpcRequestError` from `src/plugin/rpc_request.rs`: the error a request
extractor produces, in particular when the request body is malformed JSON
(`Deserialize`) or the payload stream breaks. -/
inductive RpcRequestError where
  | Broken : RpcRequestError
  | Deserialize : RpcRequestError
  | Payload : RpcRequestError
deriving DecidableEq, Repr

/-- `RpcRequestError::error_response`: `HttpResponse::new(BAD_REQUEST)` —
status 400 with an empty body.  This is the response actix sends for a
request whose JSON body failed to deserialize. -/
def RpcRequestError.error_response (_ : RpcRequestError) : HttpResponse :=
  { status := 400, body := none }

/-- `handle_volume_create`: `Ok` ↦ 200 with `RpcError::default()` (empty
`Err`), `Err(e)` ↦ `BadRequest` with `RpcError::from_str(e)`. -/
def handle_volume_create (result : Except String Unit) : HttpResponse :=
  match result with
  | .ok _ => { status := 200, body := some (rpcErrorJson "") }
  | .error e => { status := 400, body := some (rpcErrorJson e) }

/-- `handle_volume_remove`. -/
def handle_volume_remove (result : Except String Unit) : HttpResponse :=
  match result with
  | .ok _ => { status := 200, body := some (rpcErrorJson "") }
  | .error e => { status := 400, body := some (rpcErrorJson e) }

/-- `handle_volume_mount`: `Ok(mountpoint)` ↦ 200 with a
`MountVolumeResponse`, `Err(e)` ↦ 400 with `RpcError::from_str(e)`. -/
def handle_volume_mount (result : Except String String) : HttpResponse :=
  match result with
  | .ok mountpoint => { status := 200, body := some (mountResponseJson mountpoint "") }
  | .error e => { status := 400, body := some (rpcErrorJson e) }

/-- `handle_volume_path`. -/
def handle_volume_path (result : Except String String) : HttpResponse :=
  match result with
  | .ok mountpoint => { status := 200, body := some (mountResponseJson mountpoint "") }
  | .error e => { status := 400, body := some (rpcErrorJson e) }

/-- `handle_volume_unmount`. -/
def handle_volume_unmount (result : Except String Unit) : HttpResponse :=
  match result with
  | .ok _ => { status := 200, body := some (rpcErrorJson "") }
  | .error e => { status := 400, body := some (rpcErrorJson e) }

/-- `handle_volume_get`. -/
def handle_volume_get (result : Except String Volume) : HttpResponse :=
  match result with
  | .ok vol => { status := 200, body := some (getResponseJson vol "") }
  | .error e => { status := 400, body := some (rpcErrorJson e) }

/-- `handle_volume_list`. -/
def handle_volume_list (result : Except String (List Volume)) : HttpResponse :=
  match result with
  | .ok vols => { status := 200, body := some (listResponseJson vols "") }
  | .error e => { status := 400, body := some (rpcErrorJson e) }

/-! ## LUKS engine: `src/luks.rs`

The host state the engine mutates: directories, regular files with their
contents, active device-mapper nodes and mounted mountpoints. -/

/-- Host side-effect state. -/
structure SysState where
  dirs : List String
  files : List (String × List Nat)
  dmActive : List String
  mounted : List String
deriving DecidableEq, Repr

/-- `LuksVolumeDriver`: the canonicalized `data_dir` and `mount_dir` roots. -/
structure LuksVolumeDriver where
  data_dir : String
  mount_dir : String
deriving DecidableEq, Repr

/-- Outcomes of the three libcryptsetup calls inside
`deactivate_luks_device`: `open`, `luks1` and `deactivate`. -/
structure DeactivateEnv where
  openErr : Option String
  luks1Err : Option String
  deactivateFails : Bool
deriving DecidableEq, Repr

/-- `LuksVolumeDriver::deactivate_luks_device`: open the image, take the
LUKS1 handle, deactivate the dm name; each step maps its library error to
the message the Rust code formats. -/
def deactivate_luks_device (env : DeactivateEnv) (_name : String) (image : String) :
    Except String Unit :=
  match env.openErr with
  | some why => .error ("Unable to open LUKS image " ++ image ++ ": " ++ why)
  | none =>
    match env.luks1Err with
    | some why =>
      .error ("Unable to get device handle for LUKS image " ++ image ++ ": " ++ why)
    | none =>
      if env.deactivateFails then .error "Unable to deactivate LUKS device"
      else .ok ()

/-- Outcomes of the libcryptsetup calls inside `activate_luks_device`. -/
structure ActivateEnv where
  openErr : Option String
  luks1Err : Option String
  activateFails : Bool
deriving DecidableEq, Repr

/-- `LuksVolumeDriver::activate_luks_device`: open the image, take the LUKS1
handle, activate under `name`; on success the dm node path
`/dev/mapper/<name>` is returned. -/
def activate_luks_device (env : ActivateEnv) (name : String) (image : String)
    (_key : List Nat) : Except String String :=
  match env.openErr with
  | some why => .error ("Unable to open LUKS image " ++ image ++ ": " ++ why)
  | none =>
    match env.luks1Err with
    | some why =>
      .error ("Unable to get device handle for LUKS image " ++ image ++ ": " ++ why)
    | none =>
      if env.activateFails then .error "Unable to activate LUKS device"
      else .ok ("/dev/mapper/" ++ name)

/-- `LuksVolumeDriver::create_disk_image`: spawn
`dd if=/dev/zero of=<image> bs=1G count=0 seek=1`.  `Command::status()`
either fails to spawn (`.error why`) or yields the child's exit status
(`.ok code`); the Rust code maps any obtained status to `Ok(())` with
`.map(|_| ())`, so the exit code is discarded. -/
def create_disk_image (ddStatus : Except String Nat) (_location : String) :
    Except String Unit :=
  match ddStatus with
  | .ok _ => .ok ()
  | .error why => .error ("Unable to create the disk image: " ++ why)

/-- Outcomes of the three steps inside `format_luks_device`: obtaining the
format builder, writing the LUKS1 header, adding the keyslot. -/
structure FormatEnv where
  builderFails : Bool
  luks1Fails : Bool
  keyslotFails : Bool
deriving DecidableEq, Repr

/-- `LuksVolumeDriver::format_luks_device`: the `do_steps` closure, whose
error is wrapped as "Unable to format the LUKS device: ...". -/
def format_luks_device (env : FormatEnv) (_image : String) (_key : List Nat) :
    Except String Unit :=
  let do_steps : Except String Unit :=
    if env.builderFails then
      .error "Unable to create a builder to format the LUKS image"
    else if env.luks1Fails then .error "Unable to format the LUKS image"
    else if env.keyslotFails then .error "Unable to add key to LUKS keyslot"
    else .ok ()
  match do_steps with
  | .ok _ => .ok ()
  | .error why => .error ("Unable to format the LUKS device: " ++ why)

/-- Outcomes of the filesystem calls inside `get_luks_key`:
`fs::metadata(keyfile)` and `fs::read(keyfile)`. -/
structure GetKeyEnv where
  metadataErr : Option String
  readErr : Option String
deriving DecidableEq, Repr

/-- `LuksVolumeDriver::get_luks_key`: stat the keyfile, read it, decrypt
through the HSM.  The bytes read are the keyfile's recorded contents. -/
def get_luks_key (d : LuksVolumeDriver) (hsm : HSM) (env : GetKeyEnv)
    (name : String) (s : SysState) : Except String (List Nat) :=
  let key_file := d.data_dir ++ "/" ++ name ++ "/keyfile"
  match env.metadataErr with
  | some why => .error ("Unable to get key for volume " ++ name ++ ": " ++ why)
  | none =>
    match env.readErr with
    | some why => .error ("Unable to read key file " ++ key_file ++ ": " ++ why)
    | none =>
      let key_data := ((s.files.lookup key_file).getD [])
      match hsm.decrypt key_data with
      | .ok key => .ok key
      | .error e =>
        .error ("Unable to decrypt key file " ++ key_file ++ ": " ++ e.display)

/-- Outcome of `fs::write` inside `store_luks_key`. -/
structure StoreKeyEnv where
  writeErr : Option String
deriving DecidableEq, Repr

/-- `LuksVolumeDriver::store_luks_key`: encrypt the key through the HSM and
write the sealed blob to `<data_dir>/<name>/keyfile`. -/
def store_luks_key (d : LuksVolumeDriver) (hsm : HSM) (env : StoreKeyEnv)
    (name : String) (key_data : List Nat) (s : SysState) :
    Except String Unit × SysState :=
  let key_file := d.data_dir ++ "/" ++ name ++ "/keyfile"
  match hsm.encrypt key_data with
  | .error e =>
    (.error ("Unable to encrypt key " ++ key_file ++ ": " ++ e.display), s)
  | .ok encrypted_blob =>
    match env.writeErr with
    | some why =>
      (.error ("Unable to wite key file " ++ key_file ++ ": " ++ why), s)
    | none => (.ok (), { s with files := (key_file, encrypted_blob) :: s.files })

/-! ### Host-state helpers

`fs::create_dir_all`, `fs::remove_dir_all` and file creation, as set-like
updates on `SysState`. -/

/-- Effect of a successful `fs::create_dir_all p`. -/
def addDir (s : SysState) (p : String) : SysState :=
  if p ∈ s.dirs then s else { s with dirs := p :: s.dirs }

/-- Effect of successfully creating (or truncating) the regular file `p`. -/
def addFile (s : SysState) (p : String) (content : List Nat) : SysState :=
  { s with files := (p, content) :: s.files.filter (fun f => f.1 != p) }

/-- Effect of a successful `fs::remove_dir_all p`: the directory `p` and
everything strictly below it disappear. -/
def removeDirAll (s : SysState) (p : String) : SysState :=
  { s with
    dirs := s.dirs.filter (fun q => q != p && !(q.startsWith (p ++ "/"))),
    files := s.files.filter (fun f => !(f.1.startsWith (p ++ "/"))) }

/-- `true` iff a regular file exists at `p` (models `fs::metadata` success
for a file path). -/
def fileExists (s : SysState) (p : String) : Bool :=
  s.files.any (fun f => f.1 == p)

/-- `true` iff a directory exists at `p` (models `fs::metadata` success for
a directory path). -/
def dirExists (s : SysState) (p : String) : Bool :=
  s.dirs.contains p

/-! ### `create` -/

/-- The externally visible sub-steps of `create`, in the order the code
invokes them; a step is recorded when its call is made. -/
inductive CStep where
  | mkdirStep : CStep
  | ddStep : CStep
  | formatStep : CStep
  | activateStep : CStep
  | fbdStep : CStep
  | deactivateStep : CStep
  | removeStep : CStep
  | sealStep : CStep
deriving DecidableEq, Repr

/-- Outcomes of the fallible primitives `create` invokes. -/
structure CreateEnv where
  mkdirErr : Option String
  ddStatus : Except String Nat
  fmt : FormatEnv
  act : ActivateEnv
  fbdErr : Option String
  deact : DeactivateEnv
  removeErr : Option String
  store : StoreKeyEnv
deriving Repr

/-- Result of `create`: the returned `Result`, the final host state and the
trace of sub-steps that were invoked. -/
structure CreateResult where
  res : Except String Unit
  state : SysState
  trace : List CStep
deriving Repr

/-- The `do_steps` closure of `LuksVolumeDriver::create` (steps 2–7:
mkdir, disk image, LUKS format, activate, ext4 format, deactivate).
`uuid` is the throwaway `Uuid::new_v4()` used as activation name. -/
def create_do_steps (d : LuksVolumeDriver) (env : CreateEnv)
    (name uuid : String) (secret_key : List Nat) (s : SysState) :
    Except String Unit × SysState × List CStep :=
  let volume_dir := d.data_dir ++ "/" ++ name
  let volume_img := volume_dir ++ "/volume.img"
  match env.mkdirErr with
  | some why =>
    (.error ("Unable to create the volume directory " ++ volume_dir ++ ": " ++ why),
     s, [.mkdirStep])
  | none =>
    let s1 := addDir s volume_dir
    match create_disk_image env.ddStatus volume_img with
    | .error why =>
      (.error ("Couldn't create the LUKS disk image for the volume " ++ name ++ ": " ++ why),
       s1, [.mkdirStep, .ddStep])
    | .ok _ =>
      let s2 := addFile s1 volume_img []
      match format_luks_device env.fmt volume_img secret_key with
      | .error why =>
        (.error ("Unable to format LUKS header on the disk image: " ++ why),
         s2, [.mkdirStep, .ddStep, .formatStep])
      | .ok _ =>
        match activate_luks_device env.act uuid volume_img secret_key with
        | .error why =>
          (.error ("Unable to activate the LUKS disk image: " ++ why),
           s2, [.mkdirStep, .ddStep, .formatStep, .activateStep])
        | .ok path =>
          let s3 := { s2 with dmActive := uuid :: s2.dmActive }
          match env.fbdErr with
          | some why =>
            (.error ("Unable to format the LUKS disk image " ++ path ++ " as Ext4: " ++ why),
             s3, [.mkdirStep, .ddStep, .formatStep, .activateStep, .fbdStep])
          | none =>
            match deactivate_luks_device env.deact uuid volume_img with
            | .error why =>
              (.error ("Unable to deactive the LUKS disk image: " ++ why), s3,
               [.mkdirStep, .ddStep, .formatStep, .activateStep, .fbdStep, .deactivateStep])
            | .ok _ =>
              (.ok (), { s3 with dmActive := s3.dmActive.filter (fun q => q != uuid) },
               [.mkdirStep, .ddStep, .formatStep, .activateStep, .fbdStep, .deactivateStep])

/-- `LuksVolumeDriver::create`: draw a key from the HSM, run `do_steps`;
on a step failure `fs::remove_dir_all(volume_dir)` and wrap the error; on
success seal and store the key via `store_luks_key`. -/
def create (d : LuksVolumeDriver) (hsm : HSM) (env : CreateEnv)
    (name uuid : String) (s : SysState) : CreateResult :=
  let volume_dir := d.data_dir ++ "/" ++ name
  match hsm.random_bytes with
  | .error e =>
    { res := .error ("Unable to generate random bytes for new LUKS key: " ++ e.display),
      state := s, trace := [] }
  | .ok secret_key =>
    match create_do_steps d env name uuid secret_key s with
    | (.ok _, s1, tr) =>
      match store_luks_key d hsm env.store name secret_key s1 with
      | (.error e, s2) => { res := .error e, state := s2, trace := tr ++ [.sealStep] }
      | (.ok _, s2) => { res := .ok (), state := s2, trace := tr ++ [.sealStep] }
    | (.error why, s1, tr) =>
      match env.removeErr with
      | some rwhy =>
        { res := .error ("Unable to remove the volume directory for \"" ++ name ++ "\": " ++ rwhy),
          state := s1, trace := tr ++ [.removeStep] }
      | none =>
        { res := .error ("Unable to create volume " ++ name ++ ": " ++ why),
          state := removeDirAll s1 volume_dir, trace := tr ++ [.removeStep] }

/-! ### `mount` -/

/-- Outcomes of the fallible primitives `mount` invokes. -/
structure MountEnv where
  getKey : GetKeyEnv
  mkdirErr : Option String
  act : ActivateEnv
  supportedErr : Option String
  mountErr : Option String
deriving DecidableEq, Repr

/-- `LuksVolumeDriver::mount`: unseal the key, then `do_steps` (mkdir the
mountpoint, activate `/dev/mapper/<id>`, probe filesystems, mount).  The
`Err` arm of the final `match do_steps` only wraps the message — the
`// tidy up ...` comment in the source carries no code, so no state is
undone on failure. -/
def mount (d : LuksVolumeDriver) (hsm : HSM) (env : MountEnv)
    (name id : String) (s : SysState) : Except String String × SysState :=
  let volume_img := d.data_dir ++ "/" ++ name ++ "/volume.img"
  let mount_dir := d.mount_dir ++ "/" ++ name
  match get_luks_key d hsm env.getKey name s with
  | .error e => (.error e, s)
  | .ok secret_key =>
    let do_steps : Except String String × SysState :=
      match env.mkdirErr with
      | some why =>
        (.error ("Unable to create mount dir " ++ mount_dir ++ ": " ++ why), s)
      | none =>
        let s1 := addDir s mount_dir
        match activate_luks_device env.act id volume_img secret_key with
        | .error _ => (.error "Unable to open the LUKS volume", s1)
        | .ok src =>
          let s2 := { s1 with dmActive := id :: s1.dmActive }
          match env.supportedErr with
          | some why => (.error ("failed to get supported filesystems: " ++ why), s2)
          | none =>
            match env.mountErr with
            | some why =>
              (.error ("failed to get mount " ++ src ++ " to " ++ mount_dir ++ ": " ++ why), s2)
            | none => (.ok mount_dir, { s2 with mounted := mount_dir :: s2.mounted })
    match do_steps with
    | (.ok mountpoint, s1) => (.ok mountpoint, s1)
    | (.error why, s1) =>
      (.error ("Unable to mount the volume " ++ name ++ ": " ++ why), s1)

/-! ### `unmount` -/

/-- The three sub-steps of `unmount`, recorded when invoked. -/
inductive UStep where
  | unmountStep : UStep
  | deactivateStep : UStep
  | rmdirStep : UStep
deriving DecidableEq, Repr

/-- Outcomes of the fallible primitives `unmount` invokes. -/
structure UnmountEnv where
  unmountErr : Option String
  deact : DeactivateEnv
  removeErr : Option String
deriving DecidableEq, Repr

/-- `LuksVolumeDriver::unmount`: `do_steps` force-unmounts the mountpoint,
deactivates `/dev/mapper/<id>` and removes the mount directory, each step
chained with `?`; the final `map_err` wraps the first error. -/
def unmount (d : LuksVolumeDriver) (env : UnmountEnv)
    (name id : String) (s : SysState) :
    Except String Unit × SysState × List UStep :=
  let mnt_dir := d.mount_dir ++ "/" ++ name
  let volume_img := d.data_dir ++ "/" ++ name ++ "/volume.img"
  let do_steps : Except String Unit × SysState × List UStep :=
    match env.unmountErr with
    | some why =>
      (.error ("Failed to unmount " ++ mnt_dir ++ ": " ++ why), s, [.unmountStep])
    | none =>
      let s1 := { s with mounted := s.mounted.filter (fun q => q != mnt_dir) }
      match deactivate_luks_device env.deact id volume_img with
      | .error e => (.error e, s1, [.unmountStep, .deactivateStep])
      | .ok _ =>
        let s2 := { s1 with dmActive := s1.dmActive.filter (fun q => q != id) }
        match env.removeErr with
        | some why =>
          (.error ("Unable to remove mount dir " ++ mnt_dir ++ ": " ++ why), s2,
           [.unmountStep, .deactivateStep, .rmdirStep])
        | none =>
          (.ok (), removeDirAll s2 mnt_dir,
           [.unmountStep, .deactivateStep, .rmdirStep])
  match do_steps with
  | (.ok _, s1, tr) => (.ok (), s1, tr)
  | (.error why, s1, tr) =>
    (.error ("Unable to unmount " ++ name ++ ": " ++ why), s1, tr)

/-! ### `path`, `get`, `list` -/

/-- `LuksVolumeDriver::path`: return `<mount_dir>/<name>` if
`fs::metadata` succeeds on it, modelled as directory existence. -/
def pathOp (d : LuksVolumeDriver) (name : String) (s : SysState) :
    Except String String :=
  let mountpoint := d.mount_dir ++ "/" ++ name
  if dirExists s mountpoint then .ok mountpoint
  else .error ("Unable to get path for volume " ++ name ++ ": NotFound")

/-- `LuksVolumeDriver::get`: `do_steps` stats `<data_dir>/<name>/volume.img`
(error when absent), then sets `mountpoint` to `Some(<mount_dir>/<name>)`
exactly when `fs::metadata` succeeds on that path; the wrapper prepends
"Unable to get volume info: ". -/
def get (d : LuksVolumeDriver) (name : String) (s : SysState) :
    Except String Volume :=
  let do_steps : Except String Volume :=
    if !(fileExists s (d.data_dir ++ "/" ++ name ++ "/volume.img")) then
      .error "Unable to find volume image: NotFound"
    else
      let mountpoint := d.mount_dir ++ "/" ++ name
      let mp := if dirExists s mountpoint then some mountpoint else none
      .ok { name := name, mountpoint := mp }
  match do_steps with
  | .ok v => .ok v
  | .error why => .error ("Unable to get volume info: " ++ why)

/-- One element of the `fs::read_dir(data_dir)` stream: whether the
`Result<DirEntry>` item was `Ok`, the entry's file name, whether it is a
directory, and whether `f.metadata()` succeeds for it. -/
structure RawEntry where
  readOk : Bool
  name : String
  isDir : Bool
  metaOk : Bool
deriving DecidableEq, Repr

/-- `LuksVolumeDriver::list`: `fs::read_dir(data_dir).unwrap()` — a panic
(modelled as `none`) when reading the directory fails; entries whose
`Result` is `Err` are dropped by `filter_map(Result::ok)`; for each kept
entry `f.metadata().unwrap()` panics when the metadata call fails;
directories become `Volume \x7b name, mountpoint: Some("") \x7d`. -/
def list (readDirOk : Bool) (entries : List RawEntry) :
    Option (Except String (List Volume)) :=
  if !readDirOk then none
  else
    let kept := entries.filter (fun e => e.readOk)
    if kept.any (fun e => !e.metaOk) then none
    else
      some (.ok ((kept.filter (fun e => e.isDir)).map
        (fun e => { name := e.name, mountpoint := some "" })))

/-! ## Helper predicates and fixtures -/

/-- `true` iff an `Except` value is `ok`. -/
def isOkE {α β : Type} : Except α β → Bool
  | .ok _ => true
  | .error _ => false

/-- All of `create`'s steps 2–7 succeed in the given environment. -/
def create_steps_ok (env : CreateEnv) : Bool :=
  (env.mkdirErr == none) && isOkE env.ddStatus &&
  !env.fmt.builderFails && !env.fmt.luks1Fails && !env.fmt.keyslotFails &&
  (env.act.openErr == none) && (env.act.luks1Err == none) && !env.act.activateFails &&
  (env.fbdErr == none) &&
  (env.deact.openErr == none) && (env.deact.luks1Err == none) &&
  !env.deact.deactivateFails

/-- Sample driver roots. -/
def d0 : LuksVolumeDriver := { data_dir := "/data", mount_dir := "/mnt" }

/-- Sample passthrough HSM over a constant entropy source. -/
def hsm0 : HSM := dummyHSM (fun _ => 0)

/-- Empty host state. -/
def st0 : SysState := { dirs := [], files := [], dmActive := [], mounted := [] }

/-- Fully succeeding `create` environment. -/
def envOkC : CreateEnv :=
  { mkdirErr := none, ddStatus := .ok 0, fmt := ⟨false, false, false⟩,
    act := ⟨none, none, false⟩, fbdErr := none, deact := ⟨none, none, false⟩,
    removeErr := none, store := ⟨none⟩ }

/-- A `create` environment where `dd` exits with status 1 (allocation
command failed) but everything else succeeds. -/
def envDdExitOne : CreateEnv := { envOkC with ddStatus := .ok 1 }

/-- A `create` environment whose LUKS-format step fails. -/
def envFmtFail : CreateEnv := { envOkC with fmt := ⟨true, false, false⟩ }

/-- An HSM whose entropy source fails. -/
def failingRandomHSM : HSM :=
  { encrypt := fun b => .ok b, decrypt := fun b => .ok b,
    random_bytes := .error .InvalidKey }

/-! ## Small lemmas -/

/-- String append is left-cancellative. -/
theorem string_append_cancel {p a b : String} (h : p ++ a = p ++ b) : a = b := by
  have hd : p.data ++ a.data = p.data ++ b.data := by
    have h2 := congrArg String.data h
    simpa using h2
  exact String.ext (List.append_cancel_left hd)

/-! ## Claim theorems -/

/-- Claim C8: for the passthrough HSM (`DummyHSM`) and every byte string
`b`, `seal(b) = b` and `unseal(b) = b`, hence `unseal(seal(b)) = b`. -/
theorem c8_passthrough_identity (rand : Nat → Nat) (b : List Nat) :
    (dummyHSM rand).encrypt b = .ok b ∧
    (dummyHSM rand).decrypt b = .ok b ∧
    ((dummyHSM rand).encrypt b).bind (dummyHSM rand).decrypt = .ok b :=
  ⟨rfl, rfl, rfl⟩

/-- Claim C6, counterexample: the Cloud HSM's `random_bytes` returns a
128-byte buffer, not a 1024-byte one. -/
theorem c6_cloud_draws_128_bytes :
    (cloudlock_random_bytes (fun _ => 0)).map List.length = .ok 128 ∧
    (128 : Nat) ≠ 1024 := by
  refine ⟨?_, by decide⟩
  rfl

/-- Claim C6 (amended): `create` draws its data-encryption key from the
HSM's `random_bytes` operation — when the draw fails, `create` fails
immediately with the wrapped error and touches nothing — and the
passthrough HSM supplies 1024 random bytes while the Cloud HSM supplies
only 128. -/
theorem c6_random_key_source_and_sizes (rand : Nat → Nat)
    (d : LuksVolumeDriver) (hsm : HSM) (env : CreateEnv)
    (name uuid : String) (s : SysState) (e : CryptoError)
    (h : hsm.random_bytes = .error e) :
    (dummy_random_bytes rand).map List.length = .ok 1024 ∧
    (cloudlock_random_bytes rand).map List.length = .ok 128 ∧
    (create d hsm env name uuid s).res =
      .error ("Unable to generate random bytes for new LUKS key: " ++ e.display) ∧
    (create d hsm env name uuid s).state = s ∧
    (create d hsm env name uuid s).trace = [] := by
  refine ⟨?_, ?_, ?_, ?_, ?_⟩
  · simp [dummy_random_bytes, Except.map]
  · simp [cloudlock_random_bytes, Except.map]
  · simp [create, h]
  · simp [create, h]
  · simp [create, h]

/-- Witness for `c6_random_key_source_and_sizes` at a concrete input. -/
theorem c6_random_key_source_and_sizes_witness :
    (dummy_random_bytes (fun _ => 0)).map List.length = .ok 1024 ∧
    (cloudlock_random_bytes (fun _ => 0)).map List.length = .ok 128 ∧
    (create d0 failingRandomHSM envOkC "v" "u" st0).res =
      .error ("Unable to generate random bytes for new LUKS key: " ++
        CryptoError.InvalidKey.display) ∧
    (create d0 failingRandomHSM envOkC "v" "u" st0).state = st0 ∧
    (create d0 failingRandomHSM envOkC "v" "u" st0).trace = [] :=
  c6_random_key_source_and_sizes (fun _ => 0) d0 failingRandomHSM envOkC
    "v" "u" st0 .InvalidKey rfl

/-- Claim C7, counterexample: the response for a request whose JSON body
failed to deserialize is `HttpResponse::new(BAD_REQUEST)` — status 400 with
an *empty* body, not a body of the `\x7b"Err":…\x7d` shape. -/
theorem c7_malformed_json_empty_body :
    RpcRequestError.Deserialize.error_response.status = 400 ∧
    RpcRequestError.Deserialize.error_response.body = none :=
  ⟨rfl, rfl⟩

/-- Claim C7 (amended): every non-OK driver result is converted by the
dispatcher to HTTP 400 with JSON body `\x7b"Err":"<message>"\x7d` carrying
the driver's error string; a request with a malformed JSON body also gets
HTTP 400, but with an empty body rather than that JSON shape. -/
theorem c7_error_marshalling (e : String) (r : RpcRequestError) :
    handle_volume_create (.error e) = ⟨400, some (rpcErrorJson e)⟩ ∧
    handle_volume_remove (.error e) = ⟨400, some (rpcErrorJson e)⟩ ∧
    handle_volume_mount (.error e) = ⟨400, some (rpcErrorJson e)⟩ ∧
    handle_volume_path (.error e) = ⟨400, some (rpcErrorJson e)⟩ ∧
    handle_volume_unmount (.error e) = ⟨400, some (rpcErrorJson e)⟩ ∧
    handle_volume_get (.error e) = ⟨400, some (rpcErrorJson e)⟩ ∧
    handle_volume_list (.error e) = ⟨400, some (rpcErrorJson e)⟩ ∧
    r.error_response = ⟨400, none⟩ :=
  ⟨rfl, rfl, rfl, rfl, rfl, rfl, rfl, rfl⟩

/-- Claim C9: `create_disk_image` reports success for every spawned `dd`
whatever its exit status (the status is discarded by `.map(|_| ())`), and
fails only when the subprocess cannot be started; consequently `create`
proceeds to the LUKS-format step even when `dd` exits nonzero. -/
theorem c9_dd_exit_status_ignored (code : Nat) (why location : String) :
    create_disk_image (.ok code) location = .ok () ∧
    create_disk_image (.error why) location =
      .error ("Unable to create the disk image: " ++ why) ∧
    CStep.formatStep ∈ (create d0 hsm0 envDdExitOne "v" "u" st0).trace := by
  refine ⟨rfl, rfl, ?_⟩
  decide

/-- Claim C10: `list` never returns an `Err` value: failures of
`fs::read_dir` or of an entry's metadata call panic (modelled as `none`),
so any value `list` actually returns is `Ok`. -/
theorem c10_list_never_err (readDirOk : Bool) (entries : List RawEntry)
    (r : Except String (List Volume)) (h : list readDirOk entries = some r) :
    (∃ vs, r = Except.ok vs) ∧ list false entries = none := by
  refine ⟨?_, rfl⟩
  unfold list at h
  cases readDirOk with
  | false => simp at h
  | true =>
    simp only [Bool.not_true, Bool.false_eq_true, if_false] at h
    by_cases ha :
        ((entries.filter (fun e => e.readOk)).any (fun e => !e.metaOk)) = true
    · simp [ha] at h
    · simp [ha] at h
      exact ⟨_, h.symm⟩

/-- Witness for `c10_list_never_err` at a concrete input. -/
theorem c10_list_never_err_witness :
    (∃ vs, (Except.ok [] : Except String (List Volume)) = Except.ok vs) ∧
    list false [] = none :=
  c10_list_never_err true [] (Except.ok []) rfl

/-- Claim C5: `get(name)` returns the volume with
`mountpoint = Some(<mount_dir>/<name>)` exactly when the mount directory
exists and `None` when it does not, and errors exactly when
`<data_dir>/<name>/volume.img` is missing. -/
theorem c5_get_contract (d : LuksVolumeDriver) (name : String) (s : SysState) :
    get d name s =
      (if fileExists s (d.data_dir ++ "/" ++ name ++ "/volume.img") then
        Except.ok ⟨name,
          if dirExists s (d.mount_dir ++ "/" ++ name) then
            some (d.mount_dir ++ "/" ++ name)
          else none⟩
      else
        Except.error "Unable to get volume info: Unable to find volume image: NotFound") ∧
    ((∃ e, get d name s = Except.error e) ↔
      fileExists s (d.data_dir ++ "/" ++ name ++ "/volume.img") = false) := by
  by_cases hf : fileExists s (d.data_dir ++ "/" ++ name ++ "/volume.img")
  · refine ⟨by simp [get, hf], ?_⟩
    simp [get, hf]
  · refine ⟨by simp [get, hf], ?_⟩
    simp [get, hf]

/-- Claim C4, counterexample: a `data_dir` containing a single empty
subdirectory `foo` (no `volume.img` anywhere) is listed as a volume, so
`list` does not return the set of names for which `volume.img` exists. -/
theorem c4_lists_dir_without_image :
    list true [{ readOk := true, name := "foo", isDir := true, metaOk := true }] =
      some (Except.ok [{ name := "foo", mountpoint := some "" }]) ∧
    fileExists { dirs := ["/data", "/data/foo"], files := [], dmActive := [],
                 mounted := [] }
      ("/data" ++ "/" ++ "foo" ++ "/volume.img") = false :=
  ⟨rfl, rfl⟩

/-- Claim C4 (amended): `list()` returns exactly the names of the immediate
subdirectory entries of `<data_dir>` — it never consults `volume.img` —
yielding one record per directory entry with the mountpoint field present
as `Some("")`. -/
theorem c4_list_subdirectories (entries : List RawEntry)
    (h : ∀ e ∈ entries, e.readOk = true ∧ e.metaOk = true) :
    ∃ vs, list true entries = some (Except.ok vs) ∧
      vs.map Volume.name = (entries.filter (fun e => e.isDir)).map RawEntry.name ∧
      ∀ v ∈ vs, v.mountpoint = some "" := by
  have hkept : entries.filter (fun e => e.readOk) = entries :=
    List.filter_eq_self.mpr (fun a ha => (h a ha).1)
  have hany : entries.any (fun e => !e.metaOk) = false := by
    simp only [List.any_eq_false]
    intro a ha
    simp [(h a ha).2]
  refine ⟨(entries.filter (fun e => e.isDir)).map
      (fun e => { name := e.name, mountpoint := some "" }), ?_, ?_, ?_⟩
  · unfold list
    simp [hkept, hany]
  · simp [List.map_map]
  · intro v hv
    simp only [List.mem_map] at hv
    obtain ⟨a, _, rfl⟩ := hv
    rfl

/-- Witness for `c4_list_subdirectories` at a concrete input. -/
theorem c4_list_subdirectories_witness :
    ∃ vs, list true [{ readOk := true, name := "a", isDir := true, metaOk := true }] =
      some (Except.ok vs) ∧
      vs.map Volume.name =
        ([{ readOk := true, name := "a", isDir := true,
            metaOk := true }].filter (fun e : RawEntry => e.isDir)).map RawEntry.name ∧
      ∀ v ∈ vs, v.mountpoint = some "" :=
  c4_list_subdirectories [{ readOk := true, name := "a", isDir := true, metaOk := true }]
    (by decide)

/-- Host state with volume `v` created (its keyfile and image on disk). -/
def st1 : SysState :=
  { dirs := ["/data", "/data/v", "/mnt"],
    files := [("/data/v/keyfile", [1, 2, 3]), ("/data/v/volume.img", [])],
    dmActive := [], mounted := [] }

/-- `mount` environment where everything succeeds up to and including the
LUKS activation, and the final `sys_mount::Mount::new` call fails. -/
def envMountFail : MountEnv :=
  { getKey := ⟨none, none⟩, mkdirErr := none, act := ⟨none, none, false⟩,
    supportedErr := none, mountErr := some "device busy" }

/-- Claim C1: evaluation at the failing input.  When `mount("v", "id1")`
fails at the `sys_mount` step, after the LUKS device was activated and the
mount directory created, the returned value is the wrapped error, yet the
dm node `id1` is still active and `/mnt/v` still exists: the `Err` arm of
`mount` performs no cleanup (its `// tidy up ...` comment carries no code),
contradicting the specified deactivate-and-remove behaviour. -/
theorem c1_failed_mount_leaks_dm_node :
    (mount d0 hsm0 envMountFail "v" "id1" st1).1 =
      Except.error
        "Unable to mount the volume v: failed to get mount /dev/mapper/id1 to /mnt/v: device busy" ∧
    "id1" ∈ (mount d0 hsm0 envMountFail "v" "id1" st1).2.dmActive ∧
    "/mnt/v" ∈ (mount d0 hsm0 envMountFail "v" "id1" st1).2.dirs := by
  refine ⟨rfl, ?_, ?_⟩ <;> decide

/-- `unmount` environment whose first sub-step (the force-unmount) fails
while the later sub-steps would succeed. -/
def envUnmountFail : UnmountEnv :=
  { unmountErr := some "target is busy", deact := ⟨none, none, false⟩,
    removeErr := none }

/-- Fully succeeding `unmount` environment. -/
def envUnmountOk : UnmountEnv :=
  { unmountErr := none, deact := ⟨none, none, false⟩, removeErr := none }

/-- Claim C2, counterexample: when the force-unmount fails, `unmount`
returns immediately — the deactivate and rmdir sub-steps are never
executed, contrary to the claimed best-effort progression. -/
theorem c2_unmount_stops_at_first_failure :
    (unmount d0 envUnmountFail "v" "id1" st1).2.2 = [UStep.unmountStep] ∧
    UStep.deactivateStep ∉ (unmount d0 envUnmountFail "v" "id1" st1).2.2 ∧
    (unmount d0 envUnmountFail "v" "id1" st1).1 =
      Except.error "Unable to unmount v: Failed to unmount /mnt/v: target is busy" := by
  refine ⟨rfl, by decide, rfl⟩

/-- Claim C2 (amended): `unmount` attempts the three sub-steps in order but
chains them with early return: a later sub-step executes iff every earlier
one succeeded, and the first failing sub-step's error is the one returned
(wrapped); only when all three succeed does the call return `Ok`. -/
theorem c2_unmount_early_return (d : LuksVolumeDriver) (env : UnmountEnv)
    (name id : String) (s : SysState) :
    UStep.unmountStep ∈ (unmount d env name id s).2.2 ∧
    (UStep.deactivateStep ∈ (unmount d env name id s).2.2 ↔
      env.unmountErr = none) ∧
    (UStep.rmdirStep ∈ (unmount d env name id s).2.2 ↔
      env.unmountErr = none ∧ env.deact.openErr = none ∧
      env.deact.luks1Err = none ∧ env.deact.deactivateFails = false) ∧
    (∀ why, env.unmountErr = some why →
      (unmount d env name id s).1 =
        Except.error ("Unable to unmount " ++ name ++ ": " ++
          ("Failed to unmount " ++ (d.mount_dir ++ "/" ++ name) ++ ": " ++ why))) ∧
    (∀ e, env.unmountErr = none →
      deactivate_luks_device env.deact id
        (d.data_dir ++ "/" ++ name ++ "/volume.img") = Except.error e →
      (unmount d env name id s).1 =
        Except.error ("Unable to unmount " ++ name ++ ": " ++ e)) ∧
    (env.unmountErr = none → env.deact = ⟨none, none, false⟩ →
      env.removeErr = none →
      (unmount d env name id s).1 = Except.ok () ∧
      (unmount d env name id s).2.2 =
        [UStep.unmountStep, UStep.deactivateStep, UStep.rmdirStep]) := by
  rcases env with ⟨u, ⟨o, l, f⟩, r⟩
  cases u <;> cases o <;> cases l <;> cases f <;> cases r <;>
    simp_all [unmount, deactivate_luks_device]

/-- Witness for `c2_unmount_early_return` at a concrete input. -/
theorem c2_unmount_early_return_witness :
    (unmount d0 envUnmountOk "v" "id1" st1).1 = Except.ok () ∧
    (unmount d0 envUnmountOk "v" "id1" st1).2.2 =
      [UStep.unmountStep, UStep.deactivateStep, UStep.rmdirStep] :=
  (c2_unmount_early_return d0 envUnmountOk "v" "id1" st1).2.2.2.2.2 rfl rfl rfl

/-! ### Support lemmas for the `create` cleanup property -/

/-- `create_disk_image` succeeds exactly when the spawn succeeded. -/
theorem isOkE_create_disk_image (st : Except String Nat) (loc : String) :
    isOkE (create_disk_image st loc) = isOkE st := by
  cases st <;> rfl

/-- `format_luks_device` succeeds exactly when its three internal steps do. -/
theorem isOkE_format_luks_device (env : FormatEnv) (img : String) (k : List Nat) :
    isOkE (format_luks_device env img k) =
      (!env.builderFails && !env.luks1Fails && !env.keyslotFails) := by
  rcases env with ⟨b, l, ks⟩
  cases b <;> cases l <;> cases ks <;> rfl

/-- `activate_luks_device` succeeds exactly when its internal steps do. -/
theorem isOkE_activate_luks_device (env : ActivateEnv) (n img : String)
    (k : List Nat) :
    isOkE (activate_luks_device env n img k) =
      ((env.openErr == none) && (env.luks1Err == none) && !env.activateFails) := by
  rcases env with ⟨o, l, a⟩
  cases o <;> cases l <;> cases a <;> rfl

/-- `deactivate_luks_device` succeeds exactly when its internal steps do. -/
theorem isOkE_deactivate_luks_device (env : DeactivateEnv) (n img : String) :
    isOkE (deactivate_luks_device env n img) =
      ((env.openErr == none) && (env.luks1Err == none) && !env.deactivateFails) := by
  rcases env with ⟨o, l, f⟩
  cases o <;> cases l <;> cases f <;> rfl

/-- `create_dir_all` leaves the recorded files unchanged. -/
theorem addDir_files (s : SysState) (p : String) :
    (addDir s p).files = s.files := by
  unfold addDir
  split <;> rfl

/-- A path recorded after `addFile` is the added path or was already
recorded. -/
theorem mem_fst_addFile {s : SysState} {p q : String} {c : List Nat}
    (h : p ∈ (addFile s q c).files.map Prod.fst) :
    p = q ∨ p ∈ s.files.map Prod.fst := by
  unfold addFile at h
  simp only [List.map_cons, List.mem_cons] at h
  rcases h with h | h
  · exact Or.inl h
  · right
    simp only [List.mem_map] at h ⊢
    obtain ⟨a, ha, rfl⟩ := h
    exact ⟨a, (List.mem_filter.mp ha).1, rfl⟩

/-- Characterization of `create`'s `do_steps`: if it returns `Ok` then all
of steps 2–7 succeeded, and the only file path it can add to the state is
the volume image. -/
theorem create_do_steps_spec (d : LuksVolumeDriver) (env : CreateEnv)
    (name uuid : String) (k : List Nat) (s : SysState) :
    ((∃ u, (create_do_steps d env name uuid k s).1 = Except.ok u) →
      create_steps_ok env = true) ∧
    (∀ p ∈ (create_do_steps d env name uuid k s).2.1.files.map Prod.fst,
      p = (d.data_dir ++ "/" ++ name ++ "/volume.img") ∨
        p ∈ s.files.map Prod.fst) := by
  rcases env with ⟨mk, dd, fmte, acte, fbd, deacte, rm, ste⟩
  simp only [create_do_steps]
  cases mk with
  | some w =>
    constructor
    · rintro ⟨u, hu⟩
      simp at hu
    · intro p hp
      exact Or.inr hp
  | none =>
    cases hcd : create_disk_image dd (d.data_dir ++ "/" ++ name ++ "/volume.img") with
    | error why =>
      constructor
      · rintro ⟨u, hu⟩
        simp [hcd] at hu
      · intro p hp
        simp only [hcd] at hp
        rw [addDir_files] at hp
        exact Or.inr hp
    | ok u1 =>
      cases hf : format_luks_device fmte
          (d.data_dir ++ "/" ++ name ++ "/volume.img") k with
      | error why =>
        constructor
        · rintro ⟨u, hu⟩
          simp [hcd, hf] at hu
        · intro p hp
          simp only [hcd, hf] at hp
          have hp2 : p ∈ (addFile (addDir s (d.data_dir ++ "/" ++ name))
              (d.data_dir ++ "/" ++ name ++ "/volume.img") []).files.map Prod.fst := hp
          rcases mem_fst_addFile hp2 with h | h
          · exact Or.inl h
          · rw [addDir_files] at h
            exact Or.inr h
      | ok u2 =>
        cases ha : activate_luks_device acte uuid
            (d.data_dir ++ "/" ++ name ++ "/volume.img") k with
        | error why =>
          constructor
          · rintro ⟨u, hu⟩
            simp [hcd, hf, ha] at hu
          · intro p hp
            simp only [hcd, hf, ha] at hp
            have hp2 : p ∈ (addFile (addDir s (d.data_dir ++ "/" ++ name))
                (d.data_dir ++ "/" ++ name ++ "/volume.img") []).files.map Prod.fst := hp
            rcases mem_fst_addFile hp2 with h | h
            · exact Or.inl h
            · rw [addDir_files] at h
              exact Or.inr h
        | ok src =>
          cases fbd with
          | some w2 =>
            constructor
            · rintro ⟨u, hu⟩
              simp [hcd, hf, ha] at hu
            · intro p hp
              simp only [hcd, hf, ha] at hp
              have hp2 : p ∈ (addFile (addDir s (d.data_dir ++ "/" ++ name))
                  (d.data_dir ++ "/" ++ name ++ "/volume.img") []).files.map Prod.fst := hp
              rcases mem_fst_addFile hp2 with h | h
              · exact Or.inl h
              · rw [addDir_files] at h
                exact Or.inr h
          | none =>
            cases hde : deactivate_luks_device deacte uuid
                (d.data_dir ++ "/" ++ name ++ "/volume.img") with
            | error why =>
              constructor
              · rintro ⟨u, hu⟩
                simp [hcd, hf, ha, hde] at hu
              · intro p hp
                simp only [hcd, hf, ha, hde] at hp
                have hp2 : p ∈ (addFile (addDir s (d.data_dir ++ "/" ++ name))
                    (d.data_dir ++ "/" ++ name ++ "/volume.img") []).files.map Prod.fst := hp
                rcases mem_fst_addFile hp2 with h | h
                · exact Or.inl h
                · rw [addDir_files] at h
                  exact Or.inr h
            | ok u3 =>
              constructor
              · intro _
                have h1 : isOkE dd = true := by
                  rw [← isOkE_create_disk_image dd
                    (d.data_dir ++ "/" ++ name ++ "/volume.img"), hcd]
                  rfl
                have h2 : (!fmte.builderFails && !fmte.luks1Fails &&
                    !fmte.keyslotFails) = true := by
                  rw [← isOkE_format_luks_device fmte
                    (d.data_dir ++ "/" ++ name ++ "/volume.img") k, hf]
                  rfl
                have h3 : ((acte.openErr == none) && (acte.luks1Err == none) &&
                    !acte.activateFails) = true := by
                  rw [← isOkE_activate_luks_device acte uuid
                    (d.data_dir ++ "/" ++ name ++ "/volume.img") k, ha]
                  rfl
                have h4 : ((deacte.openErr == none) && (deacte.luks1Err == none) &&
                    !deacte.deactivateFails) = true := by
                  rw [← isOkE_deactivate_luks_device deacte uuid
                    (d.data_dir ++ "/" ++ name ++ "/volume.img"), hde]
                  rfl
                simp only [Bool.and_eq_true] at h1 h2 h3 h4
                simp [create_steps_ok, Bool.and_eq_true, h1, h2.1.1, h2.1.2, h2.2,
                  h3.1.1, h3.1.2, h3.2, h4.1.1, h4.1.2, h4.2]
              · intro p hp
                simp only [hcd, hf, ha, hde] at hp
                have hp2 : p ∈ (addFile (addDir s (d.data_dir ++ "/" ++ name))
                    (d.data_dir ++ "/" ++ name ++ "/volume.img") []).files.map Prod.fst := hp
                rcases mem_fst_addFile hp2 with h | h
                · exact Or.inl h
                · rw [addDir_files] at h
                  exact Or.inr h

/-- `remove_dir_all p` removes the directory `p` itself. -/
theorem removeDirAll_not_mem_dirs (s : SysState) (p : String) :
    p ∉ (removeDirAll s p).dirs := by
  simp [removeDirAll, List.mem_filter]

/-- `remove_dir_all` never adds a file path. -/
theorem mem_fst_removeDirAll {s : SysState} {p q : String}
    (h : q ∈ (removeDirAll s p).files.map Prod.fst) :
    q ∈ s.files.map Prod.fst := by
  simp only [removeDirAll, List.mem_map] at h ⊢
  obtain ⟨a, ha, rfl⟩ := h
  exact ⟨a, (List.mem_filter.mp ha).1, rfl⟩

/-- Claim C3: when any of `create`'s directory-creation, image-allocation,
LUKS-format, activation, filesystem-format or deactivation steps fails (and
the cleanup removal itself succeeds), the volume directory is removed and an
error surfaced; and the sealed keyfile exists afterwards only if every one
of those steps succeeded — `store_luks_key` runs strictly after `do_steps`
returns `Ok`. -/
theorem c3_create_cleanup (d : LuksVolumeDriver) (hsm : HSM) (env : CreateEnv)
    (name uuid : String) (s : SysState) (k : List Nat)
    (hrand : hsm.random_bytes = Except.ok k)
    (hrm : env.removeErr = none)
    (hkey : (d.data_dir ++ "/" ++ name ++ "/keyfile") ∉ s.files.map Prod.fst) :
    (create_steps_ok env = false →
      (∃ m, (create d hsm env name uuid s).res = Except.error m) ∧
      (d.data_dir ++ "/" ++ name) ∉ (create d hsm env name uuid s).state.dirs ∧
      (d.data_dir ++ "/" ++ name ++ "/keyfile") ∉
        (create d hsm env name uuid s).state.files.map Prod.fst) ∧
    ((d.data_dir ++ "/" ++ name ++ "/keyfile") ∈
        (create d hsm env name uuid s).state.files.map Prod.fst →
      create_steps_ok env = true) := by
  have hspec := create_do_steps_spec d env name uuid k s
  rcases hds : create_do_steps d env name uuid k s with ⟨res, s1, tr⟩
  cases res with
  | ok u =>
    have hok : create_steps_ok env = true := by
      apply hspec.1
      exact ⟨u, by rw [hds]⟩
    exact ⟨fun hfalse => absurd hok (by simp [hfalse]), fun _ => hok⟩
  | error why =>
    have hcr : create d hsm env name uuid s =
        { res := Except.error ("Unable to create volume " ++ name ++ ": " ++ why),
          state := removeDirAll s1 (d.data_dir ++ "/" ++ name),
          trace := tr ++ [CStep.removeStep] } := by
      simp [create, hrand, hds, hrm]
    have hnokey : (d.data_dir ++ "/" ++ name ++ "/keyfile") ∉
        (create d hsm env name uuid s).state.files.map Prod.fst := by
      rw [hcr]
      intro hmem
      have h1 := mem_fst_removeDirAll hmem
      have h2 := hspec.2 _ (by rw [hds]; exact h1)
      rcases h2 with himg | hinit
      · exact absurd (string_append_cancel himg) (by decide)
      · exact absurd hinit hkey
    constructor
    · intro _
      refine ⟨⟨_, by rw [hcr]⟩, ?_, hnokey⟩
      rw [hcr]
      exact removeDirAll_not_mem_dirs s1 _
    · intro hmem
      exact absurd hmem hnokey

/-- Witness for `c3_create_cleanup` at a concrete input (the LUKS-format
step fails). -/
theorem c3_create_cleanup_witness :
    (∃ m, (create d0 hsm0 envFmtFail "v" "u" st0).res = Except.error m) ∧
    (d0.data_dir ++ "/" ++ "v") ∉ (create d0 hsm0 envFmtFail "v" "u" st0).state.dirs ∧
    (d0.data_dir ++ "/" ++ "v" ++ "/keyfile") ∉
      (create d0 hsm0 envFmtFail "v" "u" st0).state.files.map Prod.fst :=
  (c3_create_cleanup d0 hsm0 envFmtFail "v" "u" st0
    ((List.range 1024).map (fun _ => 0)) rfl rfl (by simp [st0])).1 rfl

end LuksPlugin
